import Mathlib

/-!
Verification of the buildctl-dockerfile command-translation engine.

The program is a Node.js CLI script.  Its core logic is pure: it parses a
Docker-build-flavored argument vector into an options record, validates it
against a filesystem (queried only through existence checks), and synthesizes
the exact ordered token sequence of a buildctl invocation.  We embed that
logic shallowly: the filesystem is an explicit value (lists of existing file
and directory paths), Node's path functions are modelled over POSIX paths
with an explicit current working directory, and every fallible step returns
an Except value carrying the script's exact error message.
-/

namespace BuildctlDockerfile

/-! ### JavaScript string primitives

JS `String.prototype.startsWith` / `includes`, modelled on character lists.
JS truthiness of a nullable string: `null` and `""` are falsy.
-/

/-- JS `s.startsWith(p)`. -/
def jsStartsWith (s p : String) : Bool :=
  p.data.isPrefixOf s.data

/-- Substring search over character lists: does `p` occur contiguously in
`l`? -/
def listIncludes (p : List Char) : List Char → Bool
  | [] => p.isEmpty
  | c :: rest => p.isPrefixOf (c :: rest) || listIncludes p rest

/-- JS `s.includes(p)` (substring containment). -/
def jsIncludes (s p : String) : Bool :=
  listIncludes p.data s.data

/-- JS truthiness of a nullable string variable: `null` and `""` are falsy. -/
def jsTruthy : Option String → Bool
  | none => false
  | some s => !decide (s = "")

/-- JS `Array.prototype.indexOf` for strings (index of first occurrence). -/
def jsIndexOf (l : List String) (t : String) : Option Nat :=
  match l with
  | [] => none
  | a :: rest => if a = t then some 0 else (jsIndexOf rest t).map (· + 1)

/-! ### Node `path` module (POSIX), with an explicit working directory

The script runs `path.resolve`, `path.dirname`, `path.basename` and
`path.isAbsolute`.  `process.cwd()` is always an absolute path; we pass it
explicitly as `cwd`.
-/

/-- Node `path.isAbsolute` (POSIX): the path starts with a slash. -/
def isAbsolute (p : String) : Bool :=
  jsStartsWith p "/"

/-- Split a character list on slashes (`"a/b"` to `[[a],[b]]`, keeping empty
segments, exactly as `split('/')` would). -/
def splitOnSlash : List Char → List (List Char)
  | [] => [[]]
  | c :: rest =>
    let r := splitOnSlash rest
    if c = '/' then [] :: r
    else (c :: r.headD []) :: r.tail

/-- Normalization pass of Node `path.resolve` on an absolute path: drop empty
and `.` segments, let `..` pop the previous segment (or vanish at the root). -/
def normSegs : List (List Char) → List (List Char) → List (List Char)
  | [], acc => acc.reverse
  | s :: rest, acc =>
    if s = [] ∨ s = ['.'] then normSegs rest acc
    else if s = ['.', '.'] then normSegs rest (acc.drop 1)
    else normSegs rest (s :: acc)

/-- Node `path.resolve(p)` with the working directory `cwd` (assumed
absolute, as `process.cwd()` always is): prepend `cwd` when `p` is relative,
then normalize. -/
def resolve1 (cwd p : String) : String :=
  let full := if isAbsolute p then p.data else cwd.data ++ '/' :: p.data
  match normSegs (splitOnSlash full) [] with
  | [] => "/"
  | segs => String.mk (segs.foldl (fun acc s => acc ++ '/' :: s) [])

/-- Node `path.resolve(a, b)` with the working directory `cwd`. -/
def resolve2 (cwd a b : String) : String :=
  resolve1 (resolve1 cwd a) b

/-- Scan of Node's POSIX `path.dirname`: walking from the end of the path
down to index 1, skip the trailing run of slashes, then skip the basename;
return the index of the slash just before it (`none` if never found). -/
def dirnameFind (cs : List Char) : Nat → Bool → Option Nat
  | 0, _ => none
  | i + 1, matchedSlash =>
    if cs.getD (i + 1) ' ' = '/' then
      if matchedSlash then dirnameFind cs i matchedSlash
      else some (i + 1)
    else dirnameFind cs i false

/-- Node `path.dirname` (POSIX). -/
def dirname (p : String) : String :=
  match p.data with
  | [] => "."
  | c :: rest =>
    let cs := c :: rest
    match dirnameFind cs (cs.length - 1) true with
    | none => if c = '/' then "/" else "."
    | some e => if c = '/' ∧ e = 1 then "//" else String.mk (cs.take e)

/-- Node `path.basename` (POSIX): the last path component, ignoring trailing
slashes. -/
def basename (p : String) : String :=
  String.mk (((p.data.reverse.dropWhile (· = '/')).takeWhile (fun c => ¬(c = '/'))).reverse)

/-! ### Filesystem model

The script touches the filesystem only through `fs.existsSync`, which is
true for any existing entry, file or directory alike.  We keep files and
directories apart so that claims about directory-ness can be stated. -/

structure FS where
  files : List String
  dirs : List String
deriving Repr, DecidableEq

deriving instance DecidableEq for Except

/-- Node `fs.existsSync`: true when the path exists at all (as a file or as
a directory). -/
def FS.existsSync (fs : FS) (p : String) : Bool :=
  fs.files.contains p || fs.dirs.contains p

/-! ### The options record built by `parseArgs` -/

structure Options where
  dockerfile : Option String := none
  buildArgs : List String := []
  tag : Option String := none
  context : Option String := none
  help : Bool := false
  dryRun : Bool := false
  push : Bool := false
  passthroughArgs : List String := []
deriving Repr, DecidableEq

/-- The option-scanning loop of `parseArgs` over the tokens before `--`.
Flags taking a value consume the following token; the first token not
starting with `-` becomes the context; a second one is an error. -/
def parseMain : List String → Options → Except String Options
  | [], opts => .ok opts
  | arg :: rest, opts =>
    if arg == "-h" || arg == "--help" then parseMain rest { opts with help := true }
    else if arg == "--dry-run" then parseMain rest { opts with dryRun := true }
    else if arg == "--push" then parseMain rest { opts with push := true }
    else if arg == "-f" || arg == "--file" then
      match rest with
      | [] => .error ("Option " ++ arg ++ " requires a value")
      | v :: rest2 => parseMain rest2 { opts with dockerfile := some v }
    else if arg == "--build-arg" then
      match rest with
      | [] => .error ("Option " ++ arg ++ " requires a value")
      | v :: rest2 => parseMain rest2 { opts with buildArgs := opts.buildArgs ++ [v] }
    else if arg == "-t" || arg == "--tag" then
      match rest with
      | [] => .error ("Option " ++ arg ++ " requires a value")
      | v :: rest2 => parseMain rest2 { opts with tag := some v }
    else if !(jsStartsWith arg "-") then
      match opts.context with
      | some c => .error ("Multiple context paths specified: " ++ c ++ " and " ++ arg)
      | none => parseMain rest { opts with context := some arg }
    else .error ("Unknown option: " ++ arg)

/-- `parseArgs`: split the argument vector at the first `--`; everything
after it is captured verbatim as passthrough, everything before it is parsed
by the option loop. -/
def parseArgs (args : List String) : Except String Options :=
  match args.findIdx? (fun a => a == "--") with
  | none => parseMain args {}
  | some i => parseMain (args.take i) { passthroughArgs := args.drop (i + 1) }

/-- `validateDockerfile(contextPath, dockerfilePath)`: an explicit (truthy)
dockerfile path is taken as-is when absolute and resolved against the
working directory otherwise; with no explicit path it defaults to
`Dockerfile` inside the context.  The resolved file must exist. -/
def validateDockerfile (fs : FS) (cwd : String) (contextPath : String)
    (dockerfilePath : Option String) : Except String String :=
  let full :=
    if jsTruthy dockerfilePath then
      let p := dockerfilePath.getD ""
      if isAbsolute p then p else resolve1 cwd p
    else resolve2 cwd contextPath "Dockerfile"
  if fs.existsSync full then .ok full
  else .error ("Dockerfile not found: " ++ full)

/-- A passthrough token that counts as an output occurrence: the literal
`--output` or a token starting with `--output=`. -/
def hasOutputToken (arg : String) : Bool :=
  decide (arg = "--output") || jsStartsWith arg "--output="

/-- The conflict scan used for both the `name=` and the `push=` checks: for
each passthrough token, a token of the `--output=...` form is tested for the
needle itself; any other token triggers a test of the token following the
first literal `--output` (when that exists and is not last). -/
def outputConflict (passthroughArgs : List String) (needle : String) : Bool :=
  passthroughArgs.any fun arg =>
    if jsStartsWith arg "--output=" then jsIncludes arg needle
    else
      match jsIndexOf passthroughArgs "--output" with
      | none => false
      | some idx =>
        decide (idx + 1 < passthroughArgs.length) &&
          jsIncludes (passthroughArgs.getD (idx + 1) "") needle

/-- The build-argument loop: each entry must contain `=` and contributes the
token pair `--opt build-arg:{entry}` in order. -/
def addBuildArgs (acc : List String) : List String → Except String (List String)
  | [] => .ok acc
  | b :: rest =>
    if jsIncludes b "=" then addBuildArgs (acc ++ ["--opt", "build-arg:" ++ b]) rest
    else .error ("Invalid build-arg format: " ++ b ++ ". Expected KEY=VALUE")

/-- One step of the push-merge loop on a token that is not a literal
`--output` followed by a value: a `--output=value` token with no `push=` in
the value gets `,push=true` appended; anything else is unchanged. -/
def mergeOne (a : String) : String :=
  if jsStartsWith a "--output=" then
    let v := String.mk (a.data.drop 9)
    if jsIncludes v "push=" then a else "--output=" ++ v ++ ",push=true"
  else a

/-- The body of the push-merge loop, with the token currently under the
loop index held in `x` and the tokens after it in the list.  A literal
`--output` with a following token rewrites that token (appending
`,push=true` unless the value already mentions `push=`) and the loop then
examines the rewritten token; any other token is treated by `mergeOne` and
the loop moves on.  This is the in-place array loop of the source: the only
mutation a later iteration can observe is the rewrite of the token that
follows a literal `--output`, and the scan continues on exactly that
rewritten suffix. -/
def mergeGo (x : String) : List String → List String
  | [] => [mergeOne x]
  | b :: rest =>
    if x = "--output" then
      let b' := if jsIncludes b "push=" then b else b ++ ",push=true"
      x :: mergeGo b' rest
    else mergeOne x :: mergeGo b rest

/-- The push-merge loop over the whole passthrough array. -/
def mergePushList : List String → List String
  | [] => []
  | x :: rest => mergeGo x rest

/-- `buildBuildctlArgs(options)`: resolve and check the Dockerfile, lay down
the fixed stem, the optional `filename=` opt, the build-arg opts, run the
three conflict checks, resolve the output when passthrough supplies none,
and append the (possibly push-merged) passthrough tokens. -/
def buildBuildctlArgs (fs : FS) (cwd : String) (options : Options) :
    Except String (List String) :=
  let ctx := options.context.getD ""
  let contextPath := resolve1 cwd ctx
  match validateDockerfile fs cwd ctx options.dockerfile with
  | .error e => .error e
  | .ok dockerfilePath =>
    let dockerfileDir := dirname dockerfilePath
    let base := ["build", "--frontend", "dockerfile.v0",
      "--local", "context=" ++ contextPath,
      "--local", "dockerfile=" ++ dockerfileDir]
    let dockerfileName := basename dockerfilePath
    let withName :=
      if dockerfileName = "Dockerfile" then base
      else base ++ ["--opt", "filename=" ++ dockerfileName]
    match addBuildArgs withName options.buildArgs with
    | .error e => .error e
    | .ok argsBA =>
      let hasOut := options.passthroughArgs.any hasOutputToken
      if options.push && !(jsTruthy options.tag) && !hasOut then
        .error "--push requires -t/--tag or --output in passthrough arguments"
      else if jsTruthy options.tag && hasOut &&
          outputConflict options.passthroughArgs "name=" then
        .error "Cannot specify both -t/--tag and name= in passthrough --output"
      else if options.push && hasOut &&
          outputConflict options.passthroughArgs "push=" then
        .error "Cannot specify both --push and push= in passthrough --output"
      else
        let withOutput :=
          if !hasOut then
            if jsTruthy options.tag then
              let pushValue := if options.push then "true" else "false"
              argsBA ++ ["--output",
                "type=image,name=" ++ options.tag.getD "" ++ ",push=" ++ pushValue]
            else argsBA ++ ["--output", "type=docker"]
          else argsBA
        let finalArgs :=
          if options.passthroughArgs.length > 0 then
            withOutput ++
              (if options.push && hasOut then mergePushList options.passthroughArgs
               else options.passthroughArgs)
          else withOutput
        .ok finalArgs

/-! ### The driver

The script's main body, on its `dockerfile` subcommand path (the path taken
when the executable name or the arguments select the Dockerfile front end;
the plain pass-through-to-buildctl path performs no translation).  Each
terminal branch of the script becomes an `Outcome` constructor; execution of
the external binary is the caller's concern and is represented by the token
list handed over. -/

inductive Outcome where
  /-- `parseArgs` threw: message printed, help shown, `process.exit(1)`. -/
  | parseFailure (msg : String)
  /-- help requested: help shown, `process.exit(0)`. -/
  | helpShown
  /-- no context argument: message and help shown, `process.exit(1)`. -/
  | missingContext
  /-- `fs.existsSync(context)` false: message printed, `process.exit(1)`. -/
  | contextNotFound (msg : String)
  /-- `buildBuildctlArgs` threw: message printed, `process.exit(1)`. -/
  | buildError (msg : String)
  /-- dry-run: the joined command printed, `process.exit(0)`. -/
  | dryRun (cmd : String)
  /-- the synthesized tokens are handed to the external buildctl binary,
  whose exit status the script propagates. -/
  | execute (args : List String)
deriving Repr, DecidableEq

/-- Lines stripping a leading `dockerfile` / `d` subcommand token. -/
def stripSubcommand (argv : List String) : List String :=
  match argv with
  | [] => []
  | a :: rest => if a == "dockerfile" || a == "d" then rest else argv

/-- The script's main body on the dockerfile-subcommand path. -/
def run (fs : FS) (cwd : String) (argv0 : List String) : Outcome :=
  let argv := stripSubcommand argv0
  match parseArgs argv with
  | .error msg => .parseFailure msg
  | .ok options =>
    if options.help then .helpShown
    else if !(jsTruthy options.context) then .missingContext
    else if !(fs.existsSync (options.context.getD "")) then
      .contextNotFound ("Context path does not exist: " ++ options.context.getD "")
    else
      match buildBuildctlArgs fs cwd options with
      | .error msg => .buildError msg
      | .ok args =>
        if options.dryRun then .dryRun ("buildctl " ++ String.intercalate " " args)
        else .execute args

/-- The exit code of each terminal outcome; `none` for the execute path,
where the script propagates the external tool's status. -/
def exitCode : Outcome → Option Nat
  | .parseFailure _ => some 1
  | .helpShown => some 0
  | .missingContext => some 1
  | .contextNotFound _ => some 1
  | .buildError _ => some 1
  | .dryRun _ => some 0
  | .execute _ => none

/-! ### Concrete witness world -/

/-- A small concrete filesystem for witnesses: a context directory holding a
default `Dockerfile` and a custom one, and a stray regular file. -/
def fsW : FS :=
  { files := ["/ctx/Dockerfile", "/ctx/My.df", "/file"], dirs := ["/", "/ctx"] }

end BuildctlDockerfile

namespace BuildctlDockerfile

/-! ### Helper lemmas about tokens and the push-merge loop -/

/-- A string whose first character is not a dash is no output occurrence. -/
theorem hasOutputToken_of_head (w : String) (h : w.data.head? ≠ some '-') :
    hasOutputToken w = false := by
  simp only [hasOutputToken, Bool.or_eq_false_iff, decide_eq_false_iff_not]
  constructor
  · intro he
    rw [he] at h
    exact h rfl
  · show ("--output=" : String).data.isPrefixOf w.data = false
    cases hd : w.data with
    | nil => decide
    | cons c cs =>
      rw [hd] at h
      have hc : c ≠ '-' := by
        intro hc
        rw [hc] at h
        exact h rfl
      have he : ("--output=" : String).data = '-' :: ['-', 'o', 'u', 't', 'p', 'u', 't', '='] := rfl
      rw [he]
      show (('-' == c) && _) = false
      have : ('-' == c) = false := by
        rw [beq_eq_false_iff_ne]
        exact fun hh => hc hh.symm
      rw [this, Bool.false_and]

/-- A token starting from a non-dash prefix is no output occurrence. -/
theorem hasOutputToken_append (s t : String) (c : Char) (hs : s.data.head? = some c)
    (hc : c ≠ '-') : hasOutputToken (s ++ t) = false := by
  apply hasOutputToken_of_head
  rw [String.data_append]
  cases hd : s.data with
  | nil => rw [hd] at hs; exact absurd hs (by simp)
  | cons a as =>
    rw [hd] at hs
    simp only [List.head?_cons, Option.some.injEq] at hs
    simp only [List.cons_append, List.head?_cons, ne_eq, Option.some.injEq]
    rw [hs]
    exact hc

theorem notOut_context (s : String) : hasOutputToken ("context=" ++ s) = false :=
  hasOutputToken_append _ _ 'c' rfl (by decide)

theorem notOut_dockerfile (s : String) : hasOutputToken ("dockerfile=" ++ s) = false :=
  hasOutputToken_append _ _ 'd' rfl (by decide)

theorem notOut_filename (s : String) : hasOutputToken ("filename=" ++ s) = false :=
  hasOutputToken_append _ _ 'f' rfl (by decide)

theorem notOut_buildArg (s : String) : hasOutputToken ("build-arg:" ++ s) = false :=
  hasOutputToken_append _ _ 'b' rfl (by decide)

theorem notOut_typeImage (s : String) :
    hasOutputToken ("type=image,name=" ++ s) = false :=
  hasOutputToken_append _ _ 't' rfl (by decide)

/-- From `hasOutputToken a = false`: `a` is not the literal output flag. -/
theorem ne_output_of_notOut (a : String) (h : hasOutputToken a = false) :
    a ≠ "--output" := by
  simp only [hasOutputToken, Bool.or_eq_false_iff, decide_eq_false_iff_not] at h
  exact h.1

/-- From `hasOutputToken a = false`: `a` does not start with `--output=`. -/
theorem not_startsOut_of_notOut (a : String) (h : hasOutputToken a = false) :
    jsStartsWith a "--output=" = false := by
  simp only [hasOutputToken, Bool.or_eq_false_iff, decide_eq_false_iff_not] at h
  exact h.2

/-- A one-token output occurrence is never the literal two-token flag. -/
theorem outputEq_ne_output (v : String) : ("--output=" ++ v) ≠ "--output" := by
  intro h
  have hl := congrArg (fun s => s.data.length) h
  simp only [String.data_append, List.length_append] at hl
  have e9 : ("--output=" : String).data.length = 9 := rfl
  have e8 : ("--output" : String).data.length = 8 := rfl
  rw [e9, e8] at hl
  omega

/-- A one-token output occurrence does start with `--output=`. -/
theorem startsOut_outputEq (v : String) : jsStartsWith ("--output=" ++ v) "--output=" = true := by
  show ("--output=" : String).data.isPrefixOf ("--output=" ++ v).data = true
  rw [String.data_append, List.isPrefixOf_iff_prefix]
  exact List.prefix_append _ _

/-- Appending `,push=true` to a non-output token cannot create an output
occurrence. -/
theorem notOut_append_pushTrue (v : String) (h : hasOutputToken v = false) :
    hasOutputToken (v ++ ",push=true") = false := by
  have h1 : v ≠ "--output" := ne_output_of_notOut v h
  have h2 : jsStartsWith v "--output=" = false := not_startsOut_of_notOut v h
  simp only [hasOutputToken, Bool.or_eq_false_iff, decide_eq_false_iff_not]
  constructor
  · intro he
    have hl := congrArg (fun s => s.data.length) he
    simp only [String.data_append, List.length_append] at hl
    have e10 : (",push=true" : String).data.length = 10 := rfl
    have e8 : ("--output" : String).data.length = 8 := rfl
    rw [e10, e8] at hl
    omega
  · show ("--output=" : String).data.isPrefixOf (v ++ ",push=true").data = false
    cases hb : ("--output=" : String).data.isPrefixOf (v ++ ",push=true").data with
    | false => rfl
    | true =>
      exfalso
      have hp := List.isPrefixOf_iff_prefix.mp hb
      rw [String.data_append] at hp
      have hdi := List.prefix_or_prefix_of_prefix hp (List.prefix_append v.data _)
      cases hdi with
      | inl h3 =>
        have := List.isPrefixOf_iff_prefix.mpr h3
        rw [jsStartsWith] at h2
        rw [h2] at this
        exact Bool.false_ne_true this
      | inr h3 =>
        have hlen : v.data.length ≤ 9 := by
          have := h3.length_le
          have e9 : ("--output=" : String).data.length = 9 := rfl
          omega
        have heq : v.data = ("--output=" : String).data.take v.data.length :=
          List.prefix_iff_eq_take.mp h3
        rw [jsStartsWith] at h2
        set n := v.data.length with hn
        interval_cases n <;>
          first
          | (rw [heq] at hp; revert hp; decide)
          | (rw [heq] at h2; revert h2; decide)

/-- The merge step leaves a non-output token unchanged. -/
theorem mergeOne_notOut (a : String) (h : hasOutputToken a = false) : mergeOne a = a := by
  rw [mergeOne, not_startsOut_of_notOut a h]
  rfl

/-- On a non-output current token the merge loop treats the token by
`mergeOne` and scans on. -/
theorem mergeGo_notOut (x : String) (l : List String) (hx : hasOutputToken x = false) :
    mergeGo x l = x :: mergePushList l := by
  cases l with
  | nil => simp [mergeGo, mergePushList, mergeOne_notOut x hx]
  | cons b rest =>
    rw [mergeGo, if_neg (ne_output_of_notOut x hx), mergeOne_notOut x hx]
    rfl

/-- The merge loop passes over a run of non-output tokens unchanged. -/
theorem mergePushList_append (pre l : List String)
    (h : ∀ a ∈ pre, hasOutputToken a = false) :
    mergePushList (pre ++ l) = pre ++ mergePushList l := by
  induction pre with
  | nil => simp
  | cons x pre ih =>
    have hx := h x (List.mem_cons_self x pre)
    show mergeGo x (pre ++ l) = x :: (pre ++ mergePushList l)
    rw [mergeGo_notOut x _ hx, ih (fun a ha => h a (List.mem_cons_of_mem x ha))]

/-- A passthrough list without output occurrences is not modified by the
merge loop. -/
theorem mergePushList_id (l : List String) (h : ∀ a ∈ l, hasOutputToken a = false) :
    mergePushList l = l := by
  have := mergePushList_append l [] h
  simpa [mergePushList] using this

/-- The merge loop at a two-token occurrence whose value lacks `push=`:
the value token gets `,push=true` appended, everything after is untouched
when it holds no further output occurrence. -/
theorem mergePushList_two_token (pre post : List String) (v : String)
    (hpre : ∀ a ∈ pre, hasOutputToken a = false)
    (hpost : ∀ a ∈ post, hasOutputToken a = false)
    (hv : hasOutputToken v = false)
    (hpush : jsIncludes v "push=" = false) :
    mergePushList (pre ++ "--output" :: v :: post) =
      pre ++ "--output" :: (v ++ ",push=true") :: post := by
  have hin : mergePushList ("--output" :: v :: post) =
      "--output" :: (v ++ ",push=true") :: post := by
    show mergeGo "--output" (v :: post) = _
    rw [mergeGo, if_pos rfl, hpush]
    rw [if_neg Bool.false_ne_true]
    show "--output" :: mergeGo (v ++ ",push=true") post = _
    rw [mergeGo_notOut _ post (notOut_append_pushTrue v hv), mergePushList_id post hpost]
  rw [mergePushList_append pre _ hpre, hin]

/-- Dropping the nine characters of `--output=` from a one-token occurrence
recovers the value. -/
theorem drop_nine_outputEq (v : String) :
    String.mk (("--output=" ++ v).data.drop 9) = v := by
  rw [String.data_append]
  have e9 : ("--output=" : String).data.length = 9 := rfl
  rw [show (9 : Nat) = ("--output=" : String).data.length from e9.symm,
    List.drop_left]

/-- The merge step on a one-token occurrence whose value lacks `push=`. -/
theorem mergeOne_outputEq (v : String) (hpush : jsIncludes v "push=" = false) :
    mergeOne ("--output=" ++ v) = "--output=" ++ v ++ ",push=true" := by
  rw [mergeOne, startsOut_outputEq v]
  show (if jsIncludes (String.mk (("--output=" ++ v).data.drop 9)) "push=" = true then _
    else _) = _
  rw [drop_nine_outputEq v, hpush]
  simp

/-- The merge loop at a one-token occurrence whose token lacks `push=`:
`,push=true` is appended to the token, everything else untouched. -/
theorem mergePushList_one_token (pre post : List String) (v : String)
    (hpre : ∀ a ∈ pre, hasOutputToken a = false)
    (hpost : ∀ a ∈ post, hasOutputToken a = false)
    (hpush : jsIncludes v "push=" = false) :
    mergePushList (pre ++ ("--output=" ++ v) :: post) =
      pre ++ ("--output=" ++ v ++ ",push=true") :: post := by
  have hin : mergePushList (("--output=" ++ v) :: post) =
      ("--output=" ++ v ++ ",push=true") :: post := by
    show mergeGo ("--output=" ++ v) post = _
    cases post with
    | nil =>
      rw [mergeGo, mergeOne_outputEq v hpush]
    | cons b rest =>
      rw [mergeGo, if_neg (outputEq_ne_output v), mergeOne_outputEq v hpush,
        mergeGo_notOut b rest (hpost b (List.mem_cons_self b rest)),
        mergePushList_id rest (fun a ha => hpost a (List.mem_cons_of_mem b ha))]
  rw [mergePushList_append pre _ hpre, hin]

/-! ### Helper lemmas about the conflict scan -/

/-- `indexOf` on a list avoiding `t` entirely. -/
theorem jsIndexOf_none (l : List String) (t : String) (h : ∀ a ∈ l, a ≠ t) :
    jsIndexOf l t = none := by
  induction l with
  | nil => rfl
  | cons a rest ih =>
    rw [jsIndexOf, if_neg (h a (List.mem_cons_self a rest)),
      ih (fun b hb => h b (List.mem_cons_of_mem a hb))]
    rfl

/-- `indexOf "--output"` on a list whose first literal `--output` sits right
after a clean run finds exactly that position. -/
theorem jsIndexOf_first (pre l : List String) (h : ∀ a ∈ pre, a ≠ "--output") :
    jsIndexOf (pre ++ "--output" :: l) "--output" = some pre.length := by
  induction pre with
  | nil => rw [List.nil_append, jsIndexOf, if_pos rfl]; rfl
  | cons a rest ih =>
    rw [List.cons_append, jsIndexOf, if_neg (h a (List.mem_cons_self a rest)),
      ih (fun b hb => h b (List.mem_cons_of_mem a hb))]
    rfl

/-- Element lookup one past a clean run. -/
theorem getD_after (pre post : List String) (x v : String) :
    (pre ++ x :: v :: post).getD (pre.length + 1) "" = v := by
  induction pre with
  | nil => rfl
  | cons a rest ih =>
    simpa using ih

/-- The conflict scan over a passthrough list whose only output occurrence
is the two-token `--output v`: every element of the scan reduces to the
test of `v`. -/
theorem outputConflict_two_token (pre post : List String) (v needle : String)
    (hpre : ∀ a ∈ pre, hasOutputToken a = false)
    (hpost : ∀ a ∈ post, hasOutputToken a = false)
    (hv : hasOutputToken v = false) :
    outputConflict (pre ++ "--output" :: v :: post) needle = jsIncludes v needle := by
  have hpre' : ∀ a ∈ pre, a ≠ "--output" := fun a ha => ne_output_of_notOut a (hpre a ha)
  have hidx : jsIndexOf (pre ++ "--output" :: v :: post) "--output" = some pre.length :=
    jsIndexOf_first pre _ hpre'
  have hlen : pre.length + 1 < (pre ++ "--output" :: v :: post).length := by
    rw [List.length_append]
    simp
  have hget : (pre ++ "--output" :: v :: post).getD (pre.length + 1) "" = v :=
    getD_after pre post _ v
  have helse : ∀ a : String, jsStartsWith a "--output=" = false →
      (if jsStartsWith a "--output=" = true then
        jsIncludes a needle
      else
        match jsIndexOf (pre ++ "--output" :: v :: post) "--output" with
        | none => false
        | some idx =>
          decide (idx + 1 < (pre ++ "--output" :: v :: post).length) &&
            jsIncludes ((pre ++ "--output" :: v :: post).getD (idx + 1) "") needle) =
      jsIncludes v needle := by
    intro a ha
    rw [if_neg (by rw [ha]; exact Bool.false_ne_true), hidx]
    show (decide _ && jsIncludes ((pre ++ "--output" :: v :: post).getD (pre.length + 1) "") needle) = _
    rw [hget, decide_eq_true hlen, Bool.true_and]
  rw [outputConflict]
  cases hn : jsIncludes v needle with
  | true =>
    rw [List.any_eq_true]
    refine ⟨"--output", by simp, ?_⟩
    rw [helse "--output" (by decide), hn]
  | false =>
    rw [List.any_eq_false]
    intro a ha
    rw [List.mem_append, List.mem_cons, List.mem_cons] at ha
    rcases ha with ha | rfl | rfl | ha
    · rw [helse a (not_startsOut_of_notOut a (hpre a ha)), hn]
      exact Bool.false_ne_true
    · rw [helse _ (by decide), hn]
      exact Bool.false_ne_true
    · rw [helse _ (not_startsOut_of_notOut _ hv), hn]
      exact Bool.false_ne_true
    · rw [helse a (not_startsOut_of_notOut a (hpost a ha)), hn]
      exact Bool.false_ne_true

/-- The conflict scan over a passthrough list whose only output occurrence
is the one-token `--output=...`: only that token is tested, for the needle
inside the whole token. -/
theorem outputConflict_one_token (pre post : List String) (v needle : String)
    (hpre : ∀ a ∈ pre, hasOutputToken a = false)
    (hpost : ∀ a ∈ post, hasOutputToken a = false) :
    outputConflict (pre ++ ("--output=" ++ v) :: post) needle =
      jsIncludes ("--output=" ++ v) needle := by
  have hnone : jsIndexOf (pre ++ ("--output=" ++ v) :: post) "--output" = none := by
    apply jsIndexOf_none
    intro a ha
    rw [List.mem_append, List.mem_cons] at ha
    rcases ha with ha | rfl | ha
    · exact ne_output_of_notOut a (hpre a ha)
    · exact outputEq_ne_output v
    · exact ne_output_of_notOut a (hpost a ha)
  have helse : ∀ a : String, jsStartsWith a "--output=" = false →
      (if jsStartsWith a "--output=" = true then
        jsIncludes a needle
      else
        match jsIndexOf (pre ++ ("--output=" ++ v) :: post) "--output" with
        | none => false
        | some idx =>
          decide (idx + 1 < (pre ++ ("--output=" ++ v) :: post).length) &&
            jsIncludes ((pre ++ ("--output=" ++ v) :: post).getD (idx + 1) "") needle) =
      false := by
    intro a ha
    rw [if_neg (by rw [ha]; exact Bool.false_ne_true), hnone]
  rw [outputConflict]
  cases hn : jsIncludes ("--output=" ++ v) needle with
  | true =>
    rw [List.any_eq_true]
    refine ⟨"--output=" ++ v, by simp, ?_⟩
    rw [if_pos (startsOut_outputEq v), hn]
  | false =>
    rw [List.any_eq_false]
    intro a ha
    rw [List.mem_append, List.mem_cons] at ha
    rcases ha with ha | rfl | ha
    · rw [helse a (not_startsOut_of_notOut a (hpre a ha))]
      exact Bool.false_ne_true
    · rw [if_pos (startsOut_outputEq v), hn]
      exact Bool.false_ne_true
    · rw [helse a (not_startsOut_of_notOut a (hpost a ha))]
      exact Bool.false_ne_true

/-! ### Helper lemmas closing the synthesis paths -/

/-- The build-argument loop on well-formed entries appends one
`--opt build-arg:{entry}` pair per entry, in order. -/
theorem addBuildArgs_ok (bas : List String) :
    ∀ acc : List String, (∀ b ∈ bas, jsIncludes b "=" = true) →
      addBuildArgs acc bas =
        .ok (acc ++ bas.flatMap fun b => ["--opt", "build-arg:" ++ b]) := by
  induction bas with
  | nil =>
    intro acc _
    simp [addBuildArgs]
  | cons b rest ih =>
    intro acc h
    rw [addBuildArgs, h b (List.mem_cons_self b rest)]
    show addBuildArgs (acc ++ ["--opt", "build-arg:" ++ b]) rest = _
    rw [ih _ (fun x hx => h x (List.mem_cons_of_mem b hx))]
    simp

/-- A substring occurrence survives extending the string on the left. -/
theorem listIncludes_extend (p x l : List Char) (h : listIncludes p l = true) :
    listIncludes p (x ++ l) = true := by
  induction x with
  | nil => exact h
  | cons c cs ih =>
    show (p.isPrefixOf (c :: (cs ++ l)) || listIncludes p (cs ++ l)) = true
    rw [ih, Bool.or_true]

/-- If a needle is absent from a concatenation it is absent from the right
part. -/
theorem jsIncludes_mono (s v p : String) (h : jsIncludes (s ++ v) p = false) :
    jsIncludes v p = false := by
  cases hb : jsIncludes v p with
  | false => rfl
  | true =>
    exfalso
    have hext := listIncludes_extend p.data s.data v.data hb
    rw [jsIncludes, String.data_append] at h
    rw [h] at hext
    exact Bool.false_ne_true hext

theorem jsTruthy_some (t : String) (h : t ≠ "") : jsTruthy (some t) = true := by
  simp [jsTruthy, h]

theorem jsTruthy_none : jsTruthy none = false := rfl

/-- Gathering an append out of a conditional. -/
theorem ite_append_gather (c : Prop) [Decidable c] (w z : List String) :
    (if c then w ++ z else w) = w ++ (if c then z else []) := by
  split <;> simp

/-- The guarded passthrough tail: the length guard of the source is
redundant, because on an empty passthrough both branches are empty. -/
theorem passPart_if (b : Bool) (l : List String) :
    (if l.length > 0 then (if b then mergePushList l else l) else []) =
      (if b then mergePushList l else l) := by
  cases l with
  | nil => cases b <;> simp [mergePushList]
  | cons x r => simp

/-- The successful synthesis path of `buildBuildctlArgs` in closed form:
with the Dockerfile resolved, the build arguments well-formed, and the
three conflict guards quiet, the result is the fixed stem, the optional
`filename=` opt, the build-arg opts in order, the resolved output (only
when passthrough supplies none), and the (possibly push-merged)
passthrough tokens. -/
theorem buildBuildctlArgs_ok (fs : FS) (cwd : String) (o : Options) (d : String)
    (hd : validateDockerfile fs cwd (o.context.getD "") o.dockerfile = .ok d)
    (hba : ∀ b ∈ o.buildArgs, jsIncludes b "=" = true)
    (hg1 : (o.push && !(jsTruthy o.tag) && !(o.passthroughArgs.any hasOutputToken)) = false)
    (hg2 : (jsTruthy o.tag && o.passthroughArgs.any hasOutputToken &&
        outputConflict o.passthroughArgs "name=") = false)
    (hg3 : (o.push && o.passthroughArgs.any hasOutputToken &&
        outputConflict o.passthroughArgs "push=") = false) :
    buildBuildctlArgs fs cwd o = .ok (
      (["build", "--frontend", "dockerfile.v0",
        "--local", "context=" ++ resolve1 cwd (o.context.getD ""),
        "--local", "dockerfile=" ++ dirname d]
        ++ (if basename d = "Dockerfile" then [] else ["--opt", "filename=" ++ basename d])
        ++ (o.buildArgs.flatMap fun b => ["--opt", "build-arg:" ++ b]))
      ++ (if o.passthroughArgs.any hasOutputToken then []
          else if jsTruthy o.tag then
            ["--output", "type=image,name=" ++ o.tag.getD "" ++ ",push=" ++
              (if o.push then "true" else "false")]
          else ["--output", "type=docker"])
      ++ (if o.push && o.passthroughArgs.any hasOutputToken
          then mergePushList o.passthroughArgs else o.passthroughArgs)) := by
  simp only [buildBuildctlArgs, hd]
  rw [addBuildArgs_ok o.buildArgs _ hba]
  simp only [hg1, hg2, hg3, Bool.false_eq_true, if_false]
  rw [ite_append_gather, passPart_if]
  cases hout : o.passthroughArgs.any hasOutputToken with
  | true =>
    simp only [Bool.not_true, Bool.false_eq_true, if_false]
    split <;> simp [List.append_assoc]
  | false =>
    simp only [Bool.not_false, if_true]
    cases htag : jsTruthy o.tag with
    | true =>
      simp only [if_true]
      split <;> simp [List.append_assoc]
    | false =>
      simp only [Bool.false_eq_true, if_false]
      split <;> simp [List.append_assoc]

/-- A two-token conditional with a shared first token. -/
theorem ite_pair (t : Prop) [Decidable t] (A B C : String) :
    (if t then ([A, B] : List String) else [A, C]) = [A, if t then B else C] := by
  split <;> rfl

/-- A prefixed token keeps the head character of its prefix. -/
theorem data_head_append (s t : String) (c : Char) (h : s.data.head? = some c) :
    (s ++ t).data.head? = some c := by
  rw [String.data_append]
  cases hd : s.data with
  | nil => rw [hd] at h; simp at h
  | cons a as =>
    rw [hd] at h
    simpa using h

/-- The resolver's image-output value token is no output occurrence. -/
theorem notOut_imageToken (t pv : String) :
    hasOutputToken ("type=image,name=" ++ t ++ ",push=" ++ pv) = false := by
  apply hasOutputToken_of_head
  have h1 : ("type=image,name=" : String).data.head? = some 't' := rfl
  have h2 := data_head_append _ t _ h1
  have h3 := data_head_append _ ",push=" _ h2
  have h4 := data_head_append _ pv _ h3
  rw [h4]
  simp

/-- No token of the synthesized stem (fixed prefix, filename opt, build-arg
opts) is an output occurrence. -/
theorem stem_notOut (cwd ctx d : String) (bas : List String) (a : String)
    (ha : a ∈ (["build", "--frontend", "dockerfile.v0",
        "--local", "context=" ++ resolve1 cwd ctx,
        "--local", "dockerfile=" ++ dirname d]
        ++ (if basename d = "Dockerfile" then [] else ["--opt", "filename=" ++ basename d])
        ++ (bas.flatMap fun b => ["--opt", "build-arg:" ++ b]))) :
    hasOutputToken a = false := by
  rw [List.mem_append, List.mem_append] at ha
  rcases ha with (ha | ha) | ha
  · simp only [List.mem_cons, List.not_mem_nil, or_false] at ha
    rcases ha with rfl | rfl | rfl | rfl | rfl | rfl | rfl
    · decide
    · decide
    · decide
    · decide
    · exact notOut_context _
    · decide
    · exact notOut_dockerfile _
  · split at ha
    · simp at ha
    · simp only [List.mem_cons, List.not_mem_nil, or_false] at ha
      rcases ha with rfl | rfl
      · decide
      · exact notOut_filename _
  · rw [List.mem_flatMap] at ha
    obtain ⟨b, _, hab⟩ := ha
    simp only [List.mem_cons, List.not_mem_nil, or_false] at hab
    rcases hab with rfl | rfl
    · decide
    · exact notOut_buildArg _

/-- C3: with `push` set, no tag, and no output occurrence in passthrough,
synthesis fails with exactly the push-requires message (the earlier checks
— Dockerfile resolution and build-arg format, which the source runs first —
are assumed to pass), and no token sequence is produced. -/
theorem c3_push_requires (fs : FS) (cwd : String) (o : Options) (d : String)
    (hd : validateDockerfile fs cwd (o.context.getD "") o.dockerfile = .ok d)
    (hba : ∀ b ∈ o.buildArgs, jsIncludes b "=" = true)
    (hpush : o.push = true) (htag : o.tag = none)
    (hpass : ∀ a ∈ o.passthroughArgs, hasOutputToken a = false) :
    buildBuildctlArgs fs cwd o =
      .error "--push requires -t/--tag or --output in passthrough arguments" := by
  have hout : o.passthroughArgs.any hasOutputToken = false :=
    List.any_eq_false.mpr fun a ha => by rw [hpass a ha]; exact Bool.false_ne_true
  simp only [buildBuildctlArgs, hd]
  rw [addBuildArgs_ok o.buildArgs _ hba]
  rw [hpush, htag, hout]
  simp [jsTruthy]

/-- C3 witness: a push request with neither tag nor passthrough output is
rejected with the exact message. -/
theorem c3_witness :
    buildBuildctlArgs fsW "/" { context := some "/ctx", push := true } =
      .error "--push requires -t/--tag or --output in passthrough arguments" :=
  c3_push_requires fsW "/" _ "/ctx/Dockerfile" (by decide) (by decide) rfl rfl (by decide)

/-- C5: the full token-order contract of the synthesizer: for a validated,
output-resolved request (Dockerfile resolved, build-args well-formed, the
three conflict guards quiet) the output is, in order: `build`; the frontend
pair; the two `--local` pairs; the `filename=` opt exactly when the base
name differs from `Dockerfile`; one `build-arg` opt pair per entry in
order; the resolved output pair only when passthrough supplies no output
occurrence; then the passthrough tokens with the single possible push
rewrite. -/
theorem c5_token_order (fs : FS) (cwd : String) (o : Options) (d : String)
    (hd : validateDockerfile fs cwd (o.context.getD "") o.dockerfile = .ok d)
    (hba : ∀ b ∈ o.buildArgs, jsIncludes b "=" = true)
    (hg1 : (o.push && !(jsTruthy o.tag) && !(o.passthroughArgs.any hasOutputToken)) = false)
    (hg2 : (jsTruthy o.tag && o.passthroughArgs.any hasOutputToken &&
        outputConflict o.passthroughArgs "name=") = false)
    (hg3 : (o.push && o.passthroughArgs.any hasOutputToken &&
        outputConflict o.passthroughArgs "push=") = false) :
    buildBuildctlArgs fs cwd o = .ok (
      (["build", "--frontend", "dockerfile.v0",
        "--local", "context=" ++ resolve1 cwd (o.context.getD ""),
        "--local", "dockerfile=" ++ dirname d]
        ++ (if basename d = "Dockerfile" then [] else ["--opt", "filename=" ++ basename d])
        ++ (o.buildArgs.flatMap fun b => ["--opt", "build-arg:" ++ b]))
      ++ (if o.passthroughArgs.any hasOutputToken then []
          else if jsTruthy o.tag then
            ["--output", "type=image,name=" ++ o.tag.getD "" ++ ",push=" ++
              (if o.push then "true" else "false")]
          else ["--output", "type=docker"])
      ++ (if o.push && o.passthroughArgs.any hasOutputToken
          then mergePushList o.passthroughArgs else o.passthroughArgs)) :=
  buildBuildctlArgs_ok fs cwd o d hd hba hg1 hg2 hg3

/-- C5 witness: a request with a custom Dockerfile, two build arguments in
order, a tag and push evaluates to the exact expected token sequence. -/
theorem c5_witness :
    buildBuildctlArgs fsW "/" { context := some "/ctx", dockerfile := some "/ctx/My.df", buildArgs := ["A=1", "B=2"], tag := some "img:v", push := true } =
      .ok ["build", "--frontend", "dockerfile.v0", "--local", "context=/ctx",
        "--local", "dockerfile=/ctx", "--opt", "filename=My.df",
        "--opt", "build-arg:A=1", "--opt", "build-arg:B=2",
        "--output", "type=image,name=img:v,push=true"] := by
  have h := c5_token_order fsW "/" { context := some "/ctx", dockerfile := some "/ctx/My.df", buildArgs := ["A=1", "B=2"], tag := some "img:v", push := true } "/ctx/My.df" (by decide) (by decide) (by decide) (by decide) (by decide)
  rw [h]
  decide

/-- C1: when the passthrough segment holds no output occurrence, the
synthesized sequence ends in exactly one resolver-produced output pair
followed by the passthrough tokens: `type=image,name={tag},push={rendered push flag}` when a (truthy) tag was given, `type=docker` otherwise; and the
whole sequence holds exactly one output occurrence.  (The push-requires
guard of the source must be quiet, so `push` demands a tag here.) -/
theorem c1_resolver_output (fs : FS) (cwd : String) (o : Options) (d : String)
    (hd : validateDockerfile fs cwd (o.context.getD "") o.dockerfile = .ok d)
    (hba : ∀ b ∈ o.buildArgs, jsIncludes b "=" = true)
    (hpass : ∀ a ∈ o.passthroughArgs, hasOutputToken a = false)
    (hpushtag : o.push = true → jsTruthy o.tag = true) :
    buildBuildctlArgs fs cwd o = .ok (
      (["build", "--frontend", "dockerfile.v0",
        "--local", "context=" ++ resolve1 cwd (o.context.getD ""),
        "--local", "dockerfile=" ++ dirname d]
        ++ (if basename d = "Dockerfile" then [] else ["--opt", "filename=" ++ basename d])
        ++ (o.buildArgs.flatMap fun b => ["--opt", "build-arg:" ++ b]))
      ++ ["--output",
          if jsTruthy o.tag then
            "type=image,name=" ++ o.tag.getD "" ++ ",push=" ++
              (if o.push then "true" else "false")
          else "type=docker"]
      ++ o.passthroughArgs) ∧
    ((["build", "--frontend", "dockerfile.v0",
        "--local", "context=" ++ resolve1 cwd (o.context.getD ""),
        "--local", "dockerfile=" ++ dirname d]
        ++ (if basename d = "Dockerfile" then [] else ["--opt", "filename=" ++ basename d])
        ++ (o.buildArgs.flatMap fun b => ["--opt", "build-arg:" ++ b]))
      ++ ["--output",
          if jsTruthy o.tag then
            "type=image,name=" ++ o.tag.getD "" ++ ",push=" ++
              (if o.push then "true" else "false")
          else "type=docker"]
      ++ o.passthroughArgs).countP hasOutputToken = 1 := by
  have hout : o.passthroughArgs.any hasOutputToken = false :=
    List.any_eq_false.mpr fun a ha => by rw [hpass a ha]; exact Bool.false_ne_true
  have hg1 : (o.push && !(jsTruthy o.tag) && !(o.passthroughArgs.any hasOutputToken)) = false := by
    cases hp : o.push with
    | false => rfl
    | true => rw [hpushtag hp]; rfl
  constructor
  · have h := buildBuildctlArgs_ok fs cwd o d hd hba hg1
      (by rw [hout]; simp) (by rw [hout]; simp)
    rw [hout] at h
    simp only [Bool.false_eq_true, if_false, Bool.and_false] at h
    rw [ite_pair] at h
    exact h
  · rw [List.countP_append, List.countP_append]
    have h0 : (["build", "--frontend", "dockerfile.v0",
        "--local", "context=" ++ resolve1 cwd (o.context.getD ""),
        "--local", "dockerfile=" ++ dirname d]
        ++ (if basename d = "Dockerfile" then [] else ["--opt", "filename=" ++ basename d])
        ++ (o.buildArgs.flatMap fun b => ["--opt", "build-arg:" ++ b])).countP
          hasOutputToken = 0 :=
      List.countP_eq_zero.mpr fun a ha => by
        rw [stem_notOut cwd (o.context.getD "") d o.buildArgs a ha]
        exact Bool.false_ne_true
    have hpass0 : o.passthroughArgs.countP hasOutputToken = 0 :=
      List.countP_eq_zero.mpr fun a ha => by
        rw [hpass a ha]; exact Bool.false_ne_true
    have hmid : (["--output",
        if jsTruthy o.tag then
          "type=image,name=" ++ o.tag.getD "" ++ ",push=" ++
            (if o.push then "true" else "false")
        else "type=docker"] : List String).countP hasOutputToken = 1 := by
      have hv : hasOutputToken (if jsTruthy o.tag then
          "type=image,name=" ++ o.tag.getD "" ++ ",push=" ++
            (if o.push then "true" else "false")
          else "type=docker") = false := by
        split
        · exact notOut_imageToken _ _
        · decide
      rw [List.countP_cons, List.countP_cons, List.countP_nil, hv]
      decide
    rw [h0, hpass0, hmid]

/-- C1 witness: with no passthrough output and no tag, the command ends in
the single `--output type=docker` pair, and with exactly one output
occurrence overall. -/
theorem c1_witness :
    buildBuildctlArgs fsW "/" { context := some "/ctx", passthroughArgs := ["--progress=plain"] } =
      .ok ["build", "--frontend", "dockerfile.v0", "--local", "context=/ctx",
        "--local", "dockerfile=/ctx", "--output", "type=docker",
        "--progress=plain"] := by
  have h := c1_resolver_output fsW "/" { context := some "/ctx", passthroughArgs := ["--progress=plain"] } "/ctx/Dockerfile" (by decide) (by decide) (by decide) (by decide)
  rw [h.1]
  decide

/-- C7: Dockerfile resolution.  An explicit (nonempty) path is taken as-is
when absolute and resolved against the current working directory when
relative; resolution of an explicit path never consults the context
directory; with no explicit path the default is `Dockerfile` resolved
inside the context; in every case a missing resolved file yields exactly
the not-found error naming the resolved path. -/
theorem c7_dockerfile_resolution (fs : FS) (cwd ctx ctx2 p : String) (hp : p ≠ "") :
    (isAbsolute p = true →
      validateDockerfile fs cwd ctx (some p) =
        if fs.existsSync p then .ok p else .error ("Dockerfile not found: " ++ p)) ∧
    (isAbsolute p = false →
      validateDockerfile fs cwd ctx (some p) =
        if fs.existsSync (resolve1 cwd p) then .ok (resolve1 cwd p)
        else .error ("Dockerfile not found: " ++ resolve1 cwd p)) ∧
    validateDockerfile fs cwd ctx (some p) = validateDockerfile fs cwd ctx2 (some p) ∧
    (validateDockerfile fs cwd ctx none =
      if fs.existsSync (resolve2 cwd ctx "Dockerfile") then .ok (resolve2 cwd ctx "Dockerfile")
      else .error ("Dockerfile not found: " ++ resolve2 cwd ctx "Dockerfile")) := by
  refine ⟨?_, ?_, ?_, ?_⟩
  · intro habs
    simp [validateDockerfile, jsTruthy_some p hp, habs]
  · intro habs
    simp [validateDockerfile, jsTruthy_some p hp, habs]
  · simp [validateDockerfile, jsTruthy_some p hp]
  · simp [validateDockerfile, jsTruthy]

/-- C7 witness: a relative explicit path resolves against the working
directory regardless of the context, and the default resolves inside the
context. -/
theorem c7_witness :
    validateDockerfile fsW "/ctx" "/irrelevant" (some "My.df") = .ok "/ctx/My.df" ∧
    validateDockerfile fsW "/" "/ctx" none = .ok "/ctx/Dockerfile" := by
  constructor
  · have h := (c7_dockerfile_resolution fsW "/ctx" "/irrelevant" "/zzz" "My.df" (by decide)).2.1
      (by decide)
    rw [h]
    decide
  · have h := (c7_dockerfile_resolution fsW "/" "/ctx" "/zzz" "x" (by decide)).2.2.2
    rw [h]
    decide

/-- C4 counterexample: a context path that exists as a regular file (not a
directory) is NOT rejected by the context-existence check; the run proceeds
and fails later, at Dockerfile resolution, with a different error. -/
theorem c4_counterexample :
    ("/file" ∈ fsW.files) ∧ ¬("/file" ∈ fsW.dirs) ∧
    run fsW "/" ["/file"] = .buildError "Dockerfile not found: /file/Dockerfile" :=
  ⟨by decide, by decide, by decide⟩

/-- C4 (amended): after a successful parse with help off and a truthy
context, the run ends in the context-not-found error exactly when
`fs.existsSync` is false on the context — i.e. when the path exists
neither as a file nor as a directory; a context existing as a regular file
passes this check. -/
theorem c4_context_check (fs : FS) (cwd : String) (argv : List String) (o : Options)
    (hparse : parseArgs (stripSubcommand argv) = .ok o)
    (hhelp : o.help = false) (hctx : jsTruthy o.context = true) :
    run fs cwd argv =
        .contextNotFound ("Context path does not exist: " ++ o.context.getD "")
      ↔ fs.existsSync (o.context.getD "") = false := by
  simp only [run, hparse]
  rw [hhelp, hctx]
  simp only [Bool.not_true, Bool.false_eq_true, if_false]
  cases hex : fs.existsSync (o.context.getD "") with
  | false =>
    simp
  | true =>
    simp only [Bool.not_true, Bool.false_eq_true, if_false]
    constructor
    · intro h
      cases hb : buildBuildctlArgs fs cwd o with
      | error m => rw [hb] at h; exact absurd h (by simp)
      | ok args =>
        rw [hb] at h
        cases hdr : o.dryRun with
        | true => rw [hdr] at h; exact absurd h (by simp)
        | false => rw [hdr] at h; exact absurd h (by simp)
    · intro h
      exact absurd h (by simp)

/-- C4 witness: a nonexistent context path is rejected with the exact
context error. -/
theorem c4_witness :
    run fsW "/" ["/missing"] = .contextNotFound "Context path does not exist: /missing" :=
  (c4_context_check fsW "/" ["/missing"] { context := some "/missing" }
    (by decide) rfl (by decide)).mpr (by decide)

/-- C8: the exit-code contract of the driver: 1 after a parse failure,
0 after a help display, 1 after each validation failure (missing context,
nonexistent context, synthesis error), and 0 after a dry-run success.  (On
the execute path the script propagates the external status, modelled as
`none`.) -/
theorem c8_exit_codes (fs : FS) (cwd : String) (argv : List String) :
    (∀ msg, parseArgs (stripSubcommand argv) = .error msg →
      exitCode (run fs cwd argv) = some 1) ∧
    (∀ o, parseArgs (stripSubcommand argv) = .ok o → o.help = true →
      exitCode (run fs cwd argv) = some 0) ∧
    (run fs cwd argv = .missingContext → exitCode (run fs cwd argv) = some 1) ∧
    (∀ msg, run fs cwd argv = .contextNotFound msg →
      exitCode (run fs cwd argv) = some 1) ∧
    (∀ msg, run fs cwd argv = .buildError msg →
      exitCode (run fs cwd argv) = some 1) ∧
    (∀ cmd, run fs cwd argv = .dryRun cmd → exitCode (run fs cwd argv) = some 0) := by
  refine ⟨?_, ?_, ?_, ?_, ?_, ?_⟩
  · intro msg hmsg
    simp [run, hmsg, exitCode]
  · intro o ho hhelp
    simp [run, ho, hhelp, exitCode]
  · intro h
    rw [h]
    rfl
  · intro msg h
    rw [h]
    rfl
  · intro msg h
    rw [h]
    rfl
  · intro cmd h
    rw [h]
    rfl

/-- C8 witness: one concrete run per exit path — unknown option, help,
missing context, nonexistent context, validation failure, dry-run. -/
theorem c8_witness :
    exitCode (run fsW "/" ["-x"]) = some 1 ∧
    exitCode (run fsW "/" ["--help"]) = some 0 ∧
    exitCode (run fsW "/" []) = some 1 ∧
    exitCode (run fsW "/" ["/missing"]) = some 1 ∧
    exitCode (run fsW "/" ["--push", "/ctx"]) = some 1 ∧
    exitCode (run fsW "/" ["--dry-run", "/ctx"]) = some 0 :=
  ⟨(c8_exit_codes fsW "/" ["-x"]).1 "Unknown option: -x" (by decide),
   (c8_exit_codes fsW "/" ["--help"]).2.1 { help := true } (by decide) rfl,
   (c8_exit_codes fsW "/" []).2.2.1 (by decide),
   (c8_exit_codes fsW "/" ["/missing"]).2.2.2.1
     "Context path does not exist: /missing" (by decide),
   (c8_exit_codes fsW "/" ["--push", "/ctx"]).2.2.2.2.1
     "--push requires -t/--tag or --output in passthrough arguments" (by decide),
   (c8_exit_codes fsW "/" ["--dry-run", "/ctx"]).2.2.2.2.2
     "buildctl build --frontend dockerfile.v0 --local context=/ctx --local dockerfile=/ctx --output type=docker"
     (by decide)⟩

/-- C6 counterexample: a tag together with a passthrough holding a second
two-token `--output` occurrence whose value contains `name=` is NOT
rejected: the conflict scan only inspects the token after the first literal
`--output`, so the request synthesizes successfully with the tag silently
dropped. -/
theorem c6_counterexample :
    hasOutputToken "--output" = true ∧
    jsIncludes "type=image,name=x" "name=" = true ∧
    buildBuildctlArgs fsW "/" { context := some "/ctx", tag := some "myapp", passthroughArgs := ["--output", "type=docker", "--output", "type=image,name=x"] } =
      .ok ["build", "--frontend", "dockerfile.v0", "--local", "context=/ctx",
        "--local", "dockerfile=/ctx",
        "--output", "type=docker", "--output", "type=image,name=x"] :=
  ⟨by decide, by decide, by decide⟩

/-- C6 (amended): with a (truthy) tag and a passthrough output occurrence,
synthesis fails with exactly the tag/name conflict message precisely when
the source's conflict scan detects `name=`: in some `--output=...` token,
or in the token following the first literal `--output`; a `name=` confined
to the value of a later two-token occurrence is not detected. -/
theorem c6_tag_name_conflict (fs : FS) (cwd : String) (o : Options) (d : String)
    (hd : validateDockerfile fs cwd (o.context.getD "") o.dockerfile = .ok d)
    (hba : ∀ b ∈ o.buildArgs, jsIncludes b "=" = true)
    (htag : jsTruthy o.tag = true)
    (hout : o.passthroughArgs.any hasOutputToken = true) :
    buildBuildctlArgs fs cwd o =
        .error "Cannot specify both -t/--tag and name= in passthrough --output"
      ↔ outputConflict o.passthroughArgs "name=" = true := by
  constructor
  · intro herr
    cases hc : outputConflict o.passthroughArgs "name=" with
    | true => rfl
    | false =>
      exfalso
      simp only [buildBuildctlArgs, hd] at herr
      rw [addBuildArgs_ok o.buildArgs _ hba] at herr
      rw [htag, hout, hc] at herr
      simp only [Bool.and_false, Bool.false_eq_true, if_false, Bool.not_true,
        Bool.and_true, Bool.true_and] at herr
      split at herr
      · rw [Except.error.injEq] at herr
        revert herr
        decide
      · split at herr <;> exact Except.noConfusion herr
  · intro hc
    simp only [buildBuildctlArgs, hd]
    rw [addBuildArgs_ok o.buildArgs _ hba]
    rw [htag, hout, hc]
    simp

/-- C6 witness (for the amended claim): a tag plus `--output=...,name=...`
in passthrough is rejected with the exact message. -/
theorem c6_witness :
    buildBuildctlArgs fsW "/" { context := some "/ctx", tag := some "t", passthroughArgs := ["--output=type=registry,name=x"] } =
      .error "Cannot specify both -t/--tag and name= in passthrough --output" :=
  (c6_tag_name_conflict fsW "/"
    { context := some "/ctx", tag := some "t", passthroughArgs := ["--output=type=registry,name=x"] }
    "/ctx/Dockerfile" (by decide) (by decide) (by decide) (by decide)).mpr (by decide)

/-- The conflict scan never fires when the only output occurrence is a bare
final `--output` token: there is no following value to inspect. -/
theorem outputConflict_bare (pre : List String) (needle : String)
    (hpre : ∀ a ∈ pre, hasOutputToken a = false) :
    outputConflict (pre ++ ["--output"]) needle = false := by
  have hidx : jsIndexOf (pre ++ ["--output"]) "--output" = some pre.length := by
    have h := jsIndexOf_first pre [] (fun a ha => ne_output_of_notOut a (hpre a ha))
    simpa using h
  have hlen : ((pre ++ ["--output"]).length) = pre.length + 1 := by simp
  rw [outputConflict, List.any_eq_false]
  intro a ha
  have hstart : jsStartsWith a "--output=" = false := by
    rw [List.mem_append, List.mem_cons] at ha
    rcases ha with ha | rfl | ha
    · exact not_startsOut_of_notOut a (hpre a ha)
    · decide
    · simp at ha
  rw [if_neg (by rw [hstart]; exact Bool.false_ne_true), hidx]
  show ¬(decide (pre.length + 1 < (pre ++ ["--output"]).length) && _) = true
  rw [hlen]
  simp

/-- C10: a bare `--output` as final passthrough token still counts as an
output occurrence: the resolver emits no output of its own, neither
conflict error can fire, the merge rewrites nothing, the bare token is
forwarded unchanged — and neither the push flag nor the tag affects the
produced sequence (the closed form mentions neither). -/
theorem c10_bare_output (fs : FS) (cwd : String) (o : Options) (d : String)
    (pre : List String)
    (hd : validateDockerfile fs cwd (o.context.getD "") o.dockerfile = .ok d)
    (hba : ∀ b ∈ o.buildArgs, jsIncludes b "=" = true)
    (hpre : ∀ a ∈ pre, hasOutputToken a = false)
    (hocc : o.passthroughArgs = pre ++ ["--output"]) :
    buildBuildctlArgs fs cwd o = .ok (
      (["build", "--frontend", "dockerfile.v0",
        "--local", "context=" ++ resolve1 cwd (o.context.getD ""),
        "--local", "dockerfile=" ++ dirname d]
        ++ (if basename d = "Dockerfile" then [] else ["--opt", "filename=" ++ basename d])
        ++ (o.buildArgs.flatMap fun b => ["--opt", "build-arg:" ++ b]))
      ++ (pre ++ ["--output"])) ∧
    buildBuildctlArgs fs cwd { o with push := true } =
      buildBuildctlArgs fs cwd { o with push := false } := by
  have hout' : o.passthroughArgs.any hasOutputToken = true := by
    rw [hocc, List.any_append]
    have hsing : (["--output"] : List String).any hasOutputToken = true := by decide
    rw [hsing, Bool.or_true]
  have hconfN : outputConflict o.passthroughArgs "name=" = false := by
    rw [hocc]
    exact outputConflict_bare pre "name=" hpre
  have hconfP : outputConflict o.passthroughArgs "push=" = false := by
    rw [hocc]
    exact outputConflict_bare pre "push=" hpre
  have hmerge : mergePushList o.passthroughArgs = pre ++ ["--output"] := by
    rw [hocc, mergePushList_append pre _ hpre]
    have hsingle : mergePushList ["--output"] = ["--output"] := by decide
    rw [hsingle]
  have key : ∀ b : Bool, buildBuildctlArgs fs cwd { o with push := b } = .ok (
      (["build", "--frontend", "dockerfile.v0",
        "--local", "context=" ++ resolve1 cwd (o.context.getD ""),
        "--local", "dockerfile=" ++ dirname d]
        ++ (if basename d = "Dockerfile" then [] else ["--opt", "filename=" ++ basename d])
        ++ (o.buildArgs.flatMap fun bb => ["--opt", "build-arg:" ++ bb]))
      ++ (pre ++ ["--output"])) := by
    intro b
    have h := buildBuildctlArgs_ok fs cwd { o with push := b } d hd hba
      (by show (b && !(jsTruthy o.tag) && !(o.passthroughArgs.any hasOutputToken)) = false
          rw [hout']
          simp)
      (by show (jsTruthy o.tag && o.passthroughArgs.any hasOutputToken &&
            outputConflict o.passthroughArgs "name=") = false
          rw [hconfN]
          simp)
      (by show (b && o.passthroughArgs.any hasOutputToken &&
            outputConflict o.passthroughArgs "push=") = false
          rw [hconfP]
          simp)
    dsimp only at h
    rw [hout'] at h
    cases b with
    | true =>
      rw [h, hmerge]
      simp
    | false =>
      rw [h, hocc]
      simp
  constructor
  · exact key o.push
  · rw [key true, key false]

/-- C10 witness: a bare final `--output` is forwarded unchanged, with no
resolver output and no error, and flipping the push flag does not change
the command. -/
theorem c10_witness :
    buildBuildctlArgs fsW "/" { context := some "/ctx", passthroughArgs := ["--no-cache", "--output"] } =
      .ok ["build", "--frontend", "dockerfile.v0", "--local", "context=/ctx",
        "--local", "dockerfile=/ctx", "--no-cache", "--output"] ∧
    buildBuildctlArgs fsW "/" { context := some "/ctx", push := true, passthroughArgs := ["--no-cache", "--output"] } =
      buildBuildctlArgs fsW "/" { context := some "/ctx", push := false, passthroughArgs := ["--no-cache", "--output"] } := by
  have h := c10_bare_output fsW "/"
    { context := some "/ctx", passthroughArgs := ["--no-cache", "--output"] }
    "/ctx/Dockerfile" ["--no-cache"] (by decide) (by decide) (by decide) rfl
  exact ⟨by rw [h.1]; decide, h.2⟩

/-- C2: with `push` set and the passthrough supplying a single output
occurrence whose (token) value lacks `push=`, the synthesizer appends
`,push=true` to exactly that value, preserving the two-token or one-token
form, and forwards every other passthrough token verbatim in order.  (The
tag/name guard must be quiet when a tag is present, as in the source's
check order.) -/
theorem c2_push_merge (fs : FS) (cwd : String) (o : Options) (d : String)
    (pre post : List String) (v : String)
    (hd : validateDockerfile fs cwd (o.context.getD "") o.dockerfile = .ok d)
    (hba : ∀ b ∈ o.buildArgs, jsIncludes b "=" = true)
    (hpush : o.push = true)
    (hpre : ∀ a ∈ pre, hasOutputToken a = false)
    (hpost : ∀ a ∈ post, hasOutputToken a = false)
    (hv : hasOutputToken v = false) :
    (o.passthroughArgs = pre ++ "--output" :: v :: post →
      jsIncludes v "push=" = false →
      (jsTruthy o.tag = true → jsIncludes v "name=" = false) →
      buildBuildctlArgs fs cwd o = .ok (
        (["build", "--frontend", "dockerfile.v0",
          "--local", "context=" ++ resolve1 cwd (o.context.getD ""),
          "--local", "dockerfile=" ++ dirname d]
          ++ (if basename d = "Dockerfile" then [] else ["--opt", "filename=" ++ basename d])
          ++ (o.buildArgs.flatMap fun b => ["--opt", "build-arg:" ++ b]))
        ++ (pre ++ "--output" :: (v ++ ",push=true") :: post))) ∧
    (o.passthroughArgs = pre ++ ("--output=" ++ v) :: post →
      jsIncludes ("--output=" ++ v) "push=" = false →
      (jsTruthy o.tag = true → jsIncludes ("--output=" ++ v) "name=" = false) →
      buildBuildctlArgs fs cwd o = .ok (
        (["build", "--frontend", "dockerfile.v0",
          "--local", "context=" ++ resolve1 cwd (o.context.getD ""),
          "--local", "dockerfile=" ++ dirname d]
          ++ (if basename d = "Dockerfile" then [] else ["--opt", "filename=" ++ basename d])
          ++ (o.buildArgs.flatMap fun b => ["--opt", "build-arg:" ++ b]))
        ++ (pre ++ ("--output=" ++ v ++ ",push=true") :: post))) := by
  constructor
  · intro hocc hvp hname
    have hout' : o.passthroughArgs.any hasOutputToken = true := by
      rw [hocc, List.any_append]
      have hsing : ("--output" :: v :: post).any hasOutputToken = true := by
        show (hasOutputToken "--output" || _) = true
        rw [show hasOutputToken "--output" = true from by decide, Bool.true_or]
      rw [hsing, Bool.or_true]
    have hconfN : outputConflict o.passthroughArgs "name=" = jsIncludes v "name=" := by
      rw [hocc]
      exact outputConflict_two_token pre post v "name=" hpre hpost hv
    have hconfP : outputConflict o.passthroughArgs "push=" = jsIncludes v "push=" := by
      rw [hocc]
      exact outputConflict_two_token pre post v "push=" hpre hpost hv
    have hg2 : (jsTruthy o.tag && o.passthroughArgs.any hasOutputToken &&
        outputConflict o.passthroughArgs "name=") = false := by
      cases ht : jsTruthy o.tag with
      | false => simp
      | true =>
        rw [hconfN, hname ht]
        simp
    have h := buildBuildctlArgs_ok fs cwd o d hd hba
      (by rw [hout']; simp) hg2 (by rw [hconfP, hvp]; simp)
    rw [hout', hpush, hocc,
      mergePushList_two_token pre post v hpre hpost hv hvp] at h
    rw [h]
    simp
  · intro hocc hvp hname
    have hvp' : jsIncludes v "push=" = false := jsIncludes_mono "--output=" v "push=" hvp
    have hout' : o.passthroughArgs.any hasOutputToken = true := by
      rw [hocc, List.any_append]
      have hsing : (("--output=" ++ v) :: post).any hasOutputToken = true := by
        show (hasOutputToken ("--output=" ++ v) || _) = true
        have hocc2 : hasOutputToken ("--output=" ++ v) = true := by
          show (decide (("--output=" ++ v) = "--output") || jsStartsWith ("--output=" ++ v) "--output=") = true
          rw [startsOut_outputEq, Bool.or_true]
        rw [hocc2, Bool.true_or]
      rw [hsing, Bool.or_true]
    have hconfN : outputConflict o.passthroughArgs "name=" =
        jsIncludes ("--output=" ++ v) "name=" := by
      rw [hocc]
      exact outputConflict_one_token pre post v "name=" hpre hpost
    have hconfP : outputConflict o.passthroughArgs "push=" =
        jsIncludes ("--output=" ++ v) "push=" := by
      rw [hocc]
      exact outputConflict_one_token pre post v "push=" hpre hpost
    have hg2 : (jsTruthy o.tag && o.passthroughArgs.any hasOutputToken &&
        outputConflict o.passthroughArgs "name=") = false := by
      cases ht : jsTruthy o.tag with
      | false => simp
      | true =>
        rw [hconfN, hname ht]
        simp
    have h := buildBuildctlArgs_ok fs cwd o d hd hba
      (by rw [hout']; simp) hg2 (by rw [hconfP, hvp]; simp)
    rw [hout', hpush, hocc,
      mergePushList_one_token pre post v hpre hpost hvp'] at h
    rw [h]
    simp

/-- C2 witness: the literal scenario of the spec — `--push` with a
passthrough registry output lacking `push=` — yields `,push=true` appended
to the two-token value. -/
theorem c2_witness :
    buildBuildctlArgs fsW "/" { context := some "/ctx", push := true, passthroughArgs := ["--output", "type=registry,name=r/i:v1"] } =
      .ok ["build", "--frontend", "dockerfile.v0", "--local", "context=/ctx",
        "--local", "dockerfile=/ctx",
        "--output", "type=registry,name=r/i:v1,push=true"] := by
  have h := (c2_push_merge fsW "/"
    { context := some "/ctx", push := true, passthroughArgs := ["--output", "type=registry,name=r/i:v1"] }
    "/ctx/Dockerfile" [] [] "type=registry,name=r/i:v1"
    (by decide) (by decide) rfl (by decide) (by decide) (by decide)).1
    rfl (by decide) (by decide)
  rw [h]
  decide

/-- C9: with a (truthy) tag and a passthrough output occurrence — in either
the two-token `--output v` form or the one-token `--output=value` form —
whose value lacks `name=`, no error is raised and the tag is silently
discarded: the synthesized command is given by a closed form that never
mentions the tag — the passthrough occurrence (push-merged only when `push`
is set and it lacks `push=`) is forwarded and no resolver output is
emitted.  For the one-token form the `name=`/`push=` tests are the
source's, on the whole token. -/
theorem c9_tag_discarded (fs : FS) (cwd : String) (o : Options) (d : String)
    (pre post : List String) (v : String)
    (hd : validateDockerfile fs cwd (o.context.getD "") o.dockerfile = .ok d)
    (hba : ∀ b ∈ o.buildArgs, jsIncludes b "=" = true)
    (htag : jsTruthy o.tag = true)
    (hpre : ∀ a ∈ pre, hasOutputToken a = false)
    (hpost : ∀ a ∈ post, hasOutputToken a = false)
    (hv : hasOutputToken v = false) :
    (o.passthroughArgs = pre ++ "--output" :: v :: post →
      jsIncludes v "name=" = false →
      (o.push = true → jsIncludes v "push=" = false) →
      buildBuildctlArgs fs cwd o = .ok (
        (["build", "--frontend", "dockerfile.v0",
          "--local", "context=" ++ resolve1 cwd (o.context.getD ""),
          "--local", "dockerfile=" ++ dirname d]
          ++ (if basename d = "Dockerfile" then [] else ["--opt", "filename=" ++ basename d])
          ++ (o.buildArgs.flatMap fun b => ["--opt", "build-arg:" ++ b]))
        ++ (pre ++ "--output" ::
            (if o.push then v ++ ",push=true" else v) :: post))) ∧
    (o.passthroughArgs = pre ++ ("--output=" ++ v) :: post →
      jsIncludes ("--output=" ++ v) "name=" = false →
      (o.push = true → jsIncludes ("--output=" ++ v) "push=" = false) →
      buildBuildctlArgs fs cwd o = .ok (
        (["build", "--frontend", "dockerfile.v0",
          "--local", "context=" ++ resolve1 cwd (o.context.getD ""),
          "--local", "dockerfile=" ++ dirname d]
          ++ (if basename d = "Dockerfile" then [] else ["--opt", "filename=" ++ basename d])
          ++ (o.buildArgs.flatMap fun b => ["--opt", "build-arg:" ++ b]))
        ++ (pre ++
            (if o.push then "--output=" ++ v ++ ",push=true" else "--output=" ++ v)
            :: post))) := by
  constructor
  · intro hocc hname hpp
    have hout' : o.passthroughArgs.any hasOutputToken = true := by
      rw [hocc, List.any_append]
      have hsing : ("--output" :: v :: post).any hasOutputToken = true := by
        show (hasOutputToken "--output" || _) = true
        rw [show hasOutputToken "--output" = true from by decide, Bool.true_or]
      rw [hsing, Bool.or_true]
    have hconfN : outputConflict o.passthroughArgs "name=" = jsIncludes v "name=" := by
      rw [hocc]
      exact outputConflict_two_token pre post v "name=" hpre hpost hv
    have hconfP : outputConflict o.passthroughArgs "push=" = jsIncludes v "push=" := by
      rw [hocc]
      exact outputConflict_two_token pre post v "push=" hpre hpost hv
    have hg3 : (o.push && o.passthroughArgs.any hasOutputToken &&
        outputConflict o.passthroughArgs "push=") = false := by
      cases hp : o.push with
      | false => simp
      | true =>
        rw [hconfP, hpp hp]
        simp
    have h := buildBuildctlArgs_ok fs cwd o d hd hba
      (by rw [hout']; simp) (by rw [hconfN, hname]; simp) hg3
    rw [hout'] at h
    cases hp : o.push with
    | true =>
      rw [hp] at h
      rw [hocc, mergePushList_two_token pre post v hpre hpost hv (hpp hp)] at h
      rw [h]
      simp
    | false =>
      rw [hp] at h
      rw [hocc] at h
      rw [h]
      simp
  · intro hocc hname hpp
    have hout' : o.passthroughArgs.any hasOutputToken = true := by
      rw [hocc, List.any_append]
      have hsing : (("--output=" ++ v) :: post).any hasOutputToken = true := by
        show (hasOutputToken ("--output=" ++ v) || _) = true
        have hocc2 : hasOutputToken ("--output=" ++ v) = true := by
          show (decide (("--output=" ++ v) = "--output") ||
            jsStartsWith ("--output=" ++ v) "--output=") = true
          rw [startsOut_outputEq, Bool.or_true]
        rw [hocc2, Bool.true_or]
      rw [hsing, Bool.or_true]
    have hconfN : outputConflict o.passthroughArgs "name=" =
        jsIncludes ("--output=" ++ v) "name=" := by
      rw [hocc]
      exact outputConflict_one_token pre post v "name=" hpre hpost
    have hconfP : outputConflict o.passthroughArgs "push=" =
        jsIncludes ("--output=" ++ v) "push=" := by
      rw [hocc]
      exact outputConflict_one_token pre post v "push=" hpre hpost
    have hg3 : (o.push && o.passthroughArgs.any hasOutputToken &&
        outputConflict o.passthroughArgs "push=") = false := by
      cases hp : o.push with
      | false => simp
      | true =>
        rw [hconfP, hpp hp]
        simp
    have h := buildBuildctlArgs_ok fs cwd o d hd hba
      (by rw [hout']; simp) (by rw [hconfN, hname]; simp) hg3
    rw [hout'] at h
    cases hp : o.push with
    | true =>
      have hvp' : jsIncludes v "push=" = false :=
        jsIncludes_mono "--output=" v "push=" (hpp hp)
      rw [hp] at h
      rw [hocc, mergePushList_one_token pre post v hpre hpost hvp'] at h
      rw [h]
      simp
    | false =>
      rw [hp] at h
      rw [hocc] at h
      rw [h]
      simp

/-- C9 witness: a tag plus a passthrough output lacking `name=` — once as
the two-token `--output type=registry` and once as the one-token
`--output=type=registry` — synthesizes without error and without any
tag-derived token. -/
theorem c9_witness :
    (buildBuildctlArgs fsW "/" { context := some "/ctx", tag := some "myapp", passthroughArgs := ["--output", "type=registry"] } =
      .ok ["build", "--frontend", "dockerfile.v0", "--local", "context=/ctx",
        "--local", "dockerfile=/ctx", "--output", "type=registry"]) ∧
    (buildBuildctlArgs fsW "/" { context := some "/ctx", tag := some "myapp", passthroughArgs := ["--output=type=registry"] } =
      .ok ["build", "--frontend", "dockerfile.v0", "--local", "context=/ctx",
        "--local", "dockerfile=/ctx", "--output=type=registry"]) := by
  constructor
  · have h := (c9_tag_discarded fsW "/"
      { context := some "/ctx", tag := some "myapp", passthroughArgs := ["--output", "type=registry"] }
      "/ctx/Dockerfile" [] [] "type=registry"
      (by decide) (by decide) (by decide) (by decide) (by decide) (by decide)).1
      rfl (by decide) (by decide)
    rw [h]
    decide
  · have h := (c9_tag_discarded fsW "/"
      { context := some "/ctx", tag := some "myapp", passthroughArgs := ["--output=type=registry"] }
      "/ctx/Dockerfile" [] [] "type=registry"
      (by decide) (by decide) (by decide) (by decide) (by decide) (by decide)).2
      (by decide) (by decide) (by decide)
    rw [h]
    decide

end BuildctlDockerfile

namespace BuildctlDockerfile

/-! ### Sanity checks of the path model against Node behavior, and the
spec's literal example scenarios -/

theorem sanity_resolve_abs : resolve1 "/" "/ctx" = "/ctx" := by decide

theorem sanity_resolve_default : resolve2 "/" "/ctx" "Dockerfile" = "/ctx/Dockerfile" := by
  decide

theorem sanity_resolve_dotdot : resolve1 "/home/u" "a/../b" = "/home/u/b" := by decide

theorem sanity_dirname : dirname "/ctx/Dockerfile" = "/ctx" := by decide

theorem sanity_dirname_root : dirname "/a" = "/" := by decide

theorem sanity_dirname_rel : dirname "a" = "." := by decide

theorem sanity_dirname_doubled : dirname "/a//b" = "/a/" := by decide

theorem sanity_basename : basename "/ctx/Dockerfile" = "Dockerfile" := by decide

theorem sanity_basename_trailing : basename "/a/b/" = "b" := by decide

theorem sanity_merge_two_token : mergePushList ["--output", "type=registry,name=r"] =
    ["--output", "type=registry,name=r,push=true"] := by decide

theorem sanity_merge_one_token : mergePushList ["--output=type=registry"] =
    ["--output=type=registry,push=true"] := by decide

theorem sanity_merge_output_value : mergePushList ["--output", "--output"] =
    ["--output", "--output,push=true"] := by decide

theorem sanity_parse :
    parseArgs ["--dry-run", "-t", "app:1", "/ctx", "--", "--no-cache"] =
      .ok { dryRun := true, tag := some "app:1", context := some "/ctx",
            passthroughArgs := ["--no-cache"] } := by decide

theorem sanity_build_tag :
    buildBuildctlArgs fsW "/" { context := some "/ctx", tag := some "app:1" } =
      .ok ["build", "--frontend", "dockerfile.v0", "--local", "context=/ctx",
        "--local", "dockerfile=/ctx", "--output", "type=image,name=app:1,push=false"] := by
  decide

theorem sanity_dry_run :
    run fsW "/" ["--dry-run", "/ctx"] =
      .dryRun "buildctl build --frontend dockerfile.v0 --local context=/ctx --local dockerfile=/ctx --output type=docker" := by
  decide

end BuildctlDockerfile
